import Mathlib

/-!
Verification of the Boost.Exception example repository against its
specification.  The three example programs under src/ exercise the
exception-enrichment mechanism of Boost.Exception: a tagged field type
(`boost::error_info`), an enriched exception object (`boost::exception`)
carrying an ordered attachment collection, an attach operation
(`operator<<`), a full-dump renderer (`boost::diagnostic_information`),
a selective lookup (`boost::get_error_info`) and an auto-wrapping raise
helper (`BOOST_THROW_EXCEPTION`).  The mechanism itself is library code
that is not part of the repository sources, so it is modelled from the
specification; the three example programs (their data, control flow and
catch/attach/rethrow structure) are embedded from the sources.
-/

namespace BoostExc

/-- Value types that a field kind may fix for its values.  The examples use
`std::string`; an integer type is included so that field kinds with distinct
value types exist in the model. -/
inductive VType where
  | vstr : VType
  | vint : VType
deriving DecidableEq, Repr

/-- Type-erased values stored in the attachment collection of an enriched
exception. -/
inductive EValue where
  | str : String → EValue
  | int : Int → EValue
deriving DecidableEq, Repr

/-- Dynamic type of a type-erased value, used by the checked downcast of
selective lookup. -/
def EValue.vtype : EValue → VType
  | .str _ => .vstr
  | .int _ => .vint

/-- Stringification of a stored value, as used by the full-dump renderer. -/
def EValue.render : EValue → String
  | .str s => s
  | .int n => toString n

/-- Modelled from the spec: a field kind (`boost::error_info<Tag, T>`, not
under src/ — only its instantiations `errmsg_info` are) pairs a unique tag
identity with the value type fixed at the point of definition.  Two field
definitions are the same field kind iff their tags match. -/
structure FieldKind where
  tag : String
  vtype : VType
deriving DecidableEq, Repr

/-- Throw-site metadata: source file, line, and best-effort enclosing
operation name (absent when the compiler offers no function-name facility). -/
structure ThrowSite where
  file : String
  line : Nat
  opName : Option String
deriving DecidableEq, Repr

/-- Modelled from the spec: the enriched exception object
(`boost::exception`, not under src/ — only classes deriving from it are):
a base identity, an optional conventional message (`what()` when the kind
also derives from `std::exception`), optional throw-site metadata, and the
ordered attachment collection of (field kind, type-erased value) entries. -/
structure EnrichedException where
  baseIdentity : String
  conventionalMessage : Option String
  throwSite : Option ThrowSite
  entries : List (FieldKind × EValue)
deriving DecidableEq, Repr

/-- Insert-or-overwrite on the attachment collection: the first entry whose
tag matches is replaced in place (last write wins, position preserved);
a new field kind is appended at the end (insertion order). -/
def attachEntry : List (FieldKind × EValue) → FieldKind → EValue → List (FieldKind × EValue)
  | [], k, v => [(k, v)]
  | (k0, v0) :: rest, k, v =>
    if k0.tag = k.tag then (k, v) :: rest
    else (k0, v0) :: attachEntry rest k v

/-- Modelled from the spec: `attach` (`operator<<` on `boost::exception`,
not under src/): inserts or overwrites the entry for the field kind and
returns the mutated exception. -/
def EnrichedException.attach (e : EnrichedException) (k : FieldKind) (v : EValue) :
    EnrichedException :=
  { e with entries := attachEntry e.entries k v }

/-- Tags currently present in the attachment collection, in order. -/
def EnrichedException.tags (e : EnrichedException) : List String :=
  e.entries.map (fun p => p.1.tag)

/-- Container invariant: entries are unique per field kind (tag), and each
stored value has the value type fixed by its field kind. -/
def EnrichedException.wf (e : EnrichedException) : Prop :=
  e.tags.Nodup ∧ ∀ p ∈ e.entries, p.2.vtype = p.1.vtype

instance (e : EnrichedException) : Decidable e.wf := by
  unfold EnrichedException.wf
  infer_instance

/-- A caught value: either it satisfies the enrichment capability (derives
from `boost::exception`) or it is a plain exception exposing at most a
reportable identity and a `what()` message. -/
inductive CaughtValue where
  | enriched : EnrichedException → CaughtValue
  | plain : String → Option String → CaughtValue
deriving DecidableEq, Repr

/-- Whether a caught value satisfies the enrichment capability. -/
def CaughtValue.isEnriched : CaughtValue → Bool
  | .enriched _ => true
  | .plain _ _ => false

/-- First entry of the collection whose tag matches, if any. -/
def findTag : List (FieldKind × EValue) → String → Option (FieldKind × EValue)
  | [], _ => none
  | (k0, v0) :: rest, t => if k0.tag = t then some (k0, v0) else findTag rest t

/-- Modelled from the spec: selective lookup (`boost::get_error_info`, not
under src/): given a caught value and a field kind, return the attached
value if the caught value satisfies the enrichment capability and the field
kind is present; the typed accessor performs a checked downcast and rejects
a value of the wrong type.  Total: an absent field yields `none`, never an
error. -/
def getErrorInfo (c : CaughtValue) (k : FieldKind) : Option EValue :=
  match c with
  | .plain _ _ => none
  | .enriched e =>
    match findTag e.entries k.tag with
    | some (_, v0) => if v0.vtype = k.vtype then some v0 else none
    | none => none

/-- Throw-site header line of the full dump, or the "unknown" marker when no
metadata was captured. -/
def renderThrowSiteLine : Option ThrowSite → String
  | none => "Throw location unknown (consider using BOOST_THROW_EXCEPTION)"
  | some ts =>
    ts.file ++ "(" ++ toString ts.line ++ "): Throw in function "
      ++ (match ts.opName with
          | some f => f
          | none => "unknown")

/-- Rendering of one attached field as a dump line, in the
`[struct <tag> *] = <value>` shape the examples document. -/
def renderEntryLine (p : FieldKind × EValue) : String :=
  "[struct " ++ p.1.tag ++ " *] = " ++ p.2.render

/-- Header lines of the full dump: throw site, base identity, then the
conventional message when the exception kind exposes one. -/
def headerLines (e : EnrichedException) : List String :=
  renderThrowSiteLine e.throwSite
    :: ("Dynamic exception type: " ++ e.baseIdentity)
    :: (match e.conventionalMessage with
        | some m => ["std::exception::what: " ++ m]
        | none => [])

/-- Modelled from the spec: the full dump (`boost::diagnostic_information`,
not under src/): for an enriched caught value, the header lines followed by
every attached field rendered one per line in insertion order; for a plain
caught value, the minimal generically obtainable information.  Total: the
renderer never itself raises. -/
def diagLines : CaughtValue → List String
  | .enriched e => headerLines e ++ e.entries.map renderEntryLine
  | .plain ident msg =>
    ("Dynamic exception type: " ++ ident)
      :: (match msg with
          | some m => ["std::exception::what: " ++ m]
          | none => [])

/-- A plain exception kind: reportable identity plus `what()` message. -/
structure PlainException where
  identity : String
  whatMsg : String
deriving DecidableEq, Repr

/-- Modelled from the spec: the auto-wrapping raise helper
(`BOOST_THROW_EXCEPTION` via `boost::enable_error_info`, not under src/):
a kind that does not satisfy the enrichment capability is wrapped in a
minimal adapter that does, capturing throw-site metadata at the call site;
the reported kind is the adapter kind, the conventional message is forwarded
to the original. -/
def boostThrowException (p : PlainException) (site : ThrowSite) : EnrichedException :=
  { baseIdentity :=
      "boost::exception_detail::clone_impl<boost::exception_detail::error_info_injector<"
        ++ p.identity ++ "> >",
    conventionalMessage := some p.whatMsg,
    throwSite := some site,
    entries := [] }

/-- Outcome of running a modelled C++ function: a returned value or a thrown
exception propagating out. -/
inductive ExecResult (α : Type) where
  | ok : α → ExecResult α
  | thrown : CaughtValue → ExecResult α
deriving DecidableEq, Repr

/-- Size requested by all three examples:
`std::numeric_limits<std::size_t>::max()` on a 64-bit size_t. -/
def maxSize : Nat := 2 ^ 64 - 1

/-- Field kind `errmsg_info` of examples 1 and 2: tag `struct tag_errmsg`,
value type `std::string`. -/
def errmsgInfo : FieldKind := ⟨"tag_errmsg", .vstr⟩

/-- Field kind `errmsg_info` of example 3: tag `struct errmsg_tag`, value
type `std::string`. -/
def errmsgInfo3 : FieldKind := ⟨"errmsg_tag", .vstr⟩

/-- Exception thrown by example 1: `allocation_failed` derives from both
`boost::exception` and `std::exception` (so it is enriched, with message
"allocation failed"); a bare `throw` captures no throw-site metadata. -/
def allocationFailed1 : EnrichedException :=
  { baseIdentity := "struct allocation_failed"
    conventionalMessage := some "allocation failed"
    throwSite := none
    entries := [] }

/-- Example 1 `allocate_memory`: the underlying `new(std::nothrow)` call is
modelled as an oracle `alloc` returning the raw pointer (`0` is null); on
null the function throws `allocation_failed`, otherwise it returns the
pointer. -/
def allocate_memory1 (alloc : Nat → Nat) (size : Nat) : ExecResult Nat :=
  let c := alloc size
  if c = 0 then .thrown (.enriched allocationFailed1) else .ok c

/-- Example 1 `write_lot_of_zeros`: requests `maxSize` bytes; a
`catch (boost::exception&)` handler attaches
`errmsg_info("writing lots of zeros failed")` and rethrows the same
exception; a non-enriched exception would not match the handler and
propagates unchanged. -/
def write_lot_of_zeros1 (alloc : Nat → Nat) : ExecResult Nat :=
  match allocate_memory1 alloc maxSize with
  | .ok c => .ok c
  | .thrown cv =>
    match cv with
    | .enriched e =>
      .thrown (.enriched (e.attach errmsgInfo (.str "writing lots of zeros failed")))
    | .plain i m => .thrown (.plain i m)

/-- Example 1 `main`: catches `boost::exception&` and prints the full dump
to `std::cerr`; the model returns the printed lines, or `none` when no
enriched exception reaches the handler. -/
def main1 (alloc : Nat → Nat) : Option (List String) :=
  match write_lot_of_zeros1 alloc with
  | .ok _ => none
  | .thrown cv =>
    match cv with
    | .enriched e => some (diagLines (.enriched e))
    | .plain _ _ => none

/-- Throw site captured by `BOOST_THROW_EXCEPTION` in example 2's
`allocate_memory` (file, line, enclosing function). -/
def throwSite2 : ThrowSite :=
  ⟨"boost_exception_example_2.cpp", 26, some "allocate_memory"⟩

/-- Plain exception kind of example 2: `allocation_failed` derives only from
`std::exception`, with `what()` returning "allocation failed". -/
def allocationFailedPlain2 : PlainException :=
  ⟨"struct allocation_failed", "allocation failed"⟩

/-- Example 2 `allocate_memory`: like example 1 but raising through
`BOOST_THROW_EXCEPTION`, which auto-wraps the plain kind. -/
def allocate_memory2 (alloc : Nat → Nat) (size : Nat) : ExecResult Nat :=
  let c := alloc size
  if c = 0 then .thrown (.enriched (boostThrowException allocationFailedPlain2 throwSite2))
  else .ok c

/-- Example 2 `write_lots_of_zeros`: same catch/attach/rethrow shape as
example 1. -/
def write_lots_of_zeros2 (alloc : Nat → Nat) : ExecResult Nat :=
  match allocate_memory2 alloc maxSize with
  | .ok c => .ok c
  | .thrown cv =>
    match cv with
    | .enriched e =>
      .thrown (.enriched (e.attach errmsgInfo (.str "writing lots of zeros failed")))
    | .plain i m => .thrown (.plain i m)

/-- Example 2 `main`: same full-dump handler as example 1. -/
def main2 (alloc : Nat → Nat) : Option (List String) :=
  match write_lots_of_zeros2 alloc with
  | .ok _ => none
  | .thrown cv =>
    match cv with
    | .enriched e => some (diagLines (.enriched e))
    | .plain _ _ => none

/-- Throw site captured by `BOOST_THROW_EXCEPTION` in example 3's
`allocate_memory`. -/
def throwSite3 : ThrowSite :=
  ⟨"boost_exception_example_3.cpp", 26, some "allocate_memory"⟩

/-- Plain exception kind of example 3: `what()` returns
"allocation_failed". -/
def allocationFailedPlain3 : PlainException :=
  ⟨"struct allocation_failed", "allocation_failed"⟩

/-- Example 3 `allocate_memory`: raises through `BOOST_THROW_EXCEPTION`. -/
def allocate_memory3 (alloc : Nat → Nat) (size : Nat) : ExecResult Nat :=
  let c := alloc size
  if c = 0 then .thrown (.enriched (boostThrowException allocationFailedPlain3 throwSite3))
  else .ok c

/-- Example 3 `write_lots_of_zeros`: attaches
`errmsg_info("writing lots of zeros failed")` (tag `errmsg_tag`) and
rethrows. -/
def write_lots_of_zeros3 (alloc : Nat → Nat) : ExecResult Nat :=
  match allocate_memory3 alloc maxSize with
  | .ok c => .ok c
  | .thrown cv =>
    match cv with
    | .enriched e =>
      .thrown (.enriched (e.attach errmsgInfo3 (.str "writing lots of zeros failed")))
    | .plain i m => .thrown (.plain i m)

/-- Example 3 `main`: catches `boost::exception&` and performs selective
lookup `boost::get_error_info<errmsg_info>(e)`, then dereferences the
returned smart pointer with `operator*` without a null check.  The model
returns `some r` where `r` is the lookup result when the handler runs
(`r = none` would make the unchecked dereference undefined), and `none`
when the handler is not reached. -/
def main3 (alloc : Nat → Nat) : Option (Option EValue) :=
  match write_lots_of_zeros3 alloc with
  | .ok _ => none
  | .thrown cv =>
    match cv with
    | .enriched e => some (getErrorInfo (.enriched e) errmsgInfo3)
    | .plain _ _ => none

/-- Exception reaching example 1's top-level handler when allocation fails:
the originated `allocation_failed` enriched with the one attached field. -/
def scenarioBException : EnrichedException :=
  allocationFailed1.attach errmsgInfo (.str "writing lots of zeros failed")

/-- Exception reaching example 2's top-level handler when allocation fails:
the auto-wrapped `allocation_failed` enriched with the one attached
field. -/
def scenarioB2Exception : EnrichedException :=
  (boostThrowException allocationFailedPlain2 throwSite2).attach errmsgInfo
    (.str "writing lots of zeros failed")

/-! Helper lemmas about the attachment collection. -/

/-- After an attach, the first entry whose tag matches the attached field
kind is exactly the attached entry. -/
theorem findTag_attachEntry (l : List (FieldKind × EValue)) (k : FieldKind) (v : EValue) :
    findTag (attachEntry l k v) k.tag = some (k, v) := by
  induction l with
  | nil => simp [attachEntry, findTag]
  | cons p rest ih =>
    obtain ⟨k0, v0⟩ := p
    by_cases h : k0.tag = k.tag
    · simp [attachEntry, h, findTag]
    · simp [attachEntry, h, findTag, ih]

/-- Attaching a field kind whose tag is not yet present appends the new
entry at the end of the collection. -/
theorem attachEntry_of_not_mem (l : List (FieldKind × EValue)) (k : FieldKind) (v : EValue)
    (h : ∀ p ∈ l, p.1.tag ≠ k.tag) :
    attachEntry l k v = l ++ [(k, v)] := by
  induction l with
  | nil => simp [attachEntry]
  | cons p rest ih =>
    obtain ⟨k0, v0⟩ := p
    have hk0 : k0.tag ≠ k.tag := h (k0, v0) (List.mem_cons_self _ _)
    simp only [attachEntry, if_neg hk0, List.cons_append, List.cons.injEq, true_and]
    exact ih (fun q hq => h q (List.mem_cons_of_mem _ hq))

/-- Attaching never removes a tag from the collection. -/
theorem mem_tags_attachEntry (l : List (FieldKind × EValue)) (k : FieldKind) (v : EValue)
    (t : String) (h : t ∈ l.map (fun p => p.1.tag)) :
    t ∈ (attachEntry l k v).map (fun p => p.1.tag) := by
  induction l with
  | nil => simp at h
  | cons p rest ih =>
    obtain ⟨k0, v0⟩ := p
    by_cases hk : k0.tag = k.tag
    · simp only [attachEntry, if_pos hk, List.map_cons, List.mem_cons]
      simp only [List.map_cons, List.mem_cons] at h
      rcases h with h | h
      · exact Or.inl (h.trans hk)
      · exact Or.inr h
    · simp only [attachEntry, if_neg hk, List.map_cons, List.mem_cons]
      simp only [List.map_cons, List.mem_cons] at h
      rcases h with h | h
      · exact Or.inl h
      · exact Or.inr (ih h)

/-- Every tag present after an attach was present before or is the attached
tag. -/
theorem tags_attachEntry_subset (l : List (FieldKind × EValue)) (k : FieldKind) (v : EValue)
    (t : String) (h : t ∈ (attachEntry l k v).map (fun p => p.1.tag)) :
    t ∈ l.map (fun p => p.1.tag) ∨ t = k.tag := by
  induction l with
  | nil =>
    simp [attachEntry] at h
    exact Or.inr h
  | cons p rest ih =>
    obtain ⟨k0, v0⟩ := p
    by_cases hk : k0.tag = k.tag
    · simp only [attachEntry, if_pos hk, List.map_cons, List.mem_cons] at h
      rcases h with h | h
      · exact Or.inr h
      · exact Or.inl (by simp [List.mem_cons, h])
    · simp only [attachEntry, if_neg hk, List.map_cons, List.mem_cons] at h
      rcases h with h | h
      · exact Or.inl (by simp [List.mem_cons, h])
      · rcases ih h with h1 | h1
        · exact Or.inl (by simp [List.mem_cons, h1])
        · exact Or.inr h1

/-- On a collection with pairwise distinct tags, an attach leaves exactly
one entry for the attached tag — the new one — and keeps the tags pairwise
distinct. -/
theorem attachEntry_filter_nodup (l : List (FieldKind × EValue)) (k : FieldKind) (v : EValue)
    (h : (l.map (fun p => p.1.tag)).Nodup) :
    (attachEntry l k v).filter (fun p => p.1.tag == k.tag) = [(k, v)] ∧
      ((attachEntry l k v).map (fun p => p.1.tag)).Nodup := by
  induction l with
  | nil => simp [attachEntry, List.filter]
  | cons p rest ih =>
    obtain ⟨k0, v0⟩ := p
    simp only [List.map_cons, List.nodup_cons] at h
    obtain ⟨hnotin, hrest⟩ := h
    by_cases hk : k0.tag = k.tag
    · refine ⟨?_, ?_⟩
      · have hfr : rest.filter (fun p => p.1.tag == k.tag) = [] := by
          rw [List.filter_eq_nil_iff]
          intro q hq
          simp only [beq_iff_eq]
          intro hcontra
          exact hnotin (hk ▸ hcontra ▸ List.mem_map_of_mem (fun p => p.1.tag) hq)
        simp [attachEntry, if_pos hk, List.filter, hfr]
      · simp only [attachEntry, if_pos hk, List.map_cons, List.nodup_cons]
        exact ⟨fun hc => hnotin (hk ▸ hc), hrest⟩
    · obtain ⟨ihf, ihn⟩ := ih hrest
      refine ⟨?_, ?_⟩
      · have hbe : ((k0, v0).1.tag == k.tag) = false := by simp [hk]
        simp [attachEntry, if_neg hk, List.filter, hbe, ihf]
      · simp only [attachEntry, if_neg hk, List.map_cons, List.nodup_cons]
        refine ⟨?_, ihn⟩
        intro hc
        rcases tags_attachEntry_subset rest k v k0.tag hc with h1 | h1
        · exact hnotin h1
        · exact hk h1

/-- On a collection with pairwise distinct tags, a member entry is the one
`findTag` returns for its tag. -/
theorem findTag_of_mem_nodup (l : List (FieldKind × EValue)) (k : FieldKind) (v : EValue)
    (hnd : (l.map (fun p => p.1.tag)).Nodup) (hmem : (k, v) ∈ l) :
    findTag l k.tag = some (k, v) := by
  induction l with
  | nil => simp at hmem
  | cons p rest ih =>
    obtain ⟨k0, v0⟩ := p
    simp only [List.map_cons, List.nodup_cons] at hnd
    obtain ⟨hnotin, hrest⟩ := hnd
    rcases List.mem_cons.mp hmem with heq | hmem2
    · cases heq
      simp [findTag]
    · have hk0 : k0.tag ≠ k.tag := by
        intro hcontra
        exact hnotin (hcontra ▸ List.mem_map_of_mem (fun p => p.1.tag) hmem2)
      simp only [findTag, if_neg hk0]
      exact ih hrest hmem2

/-- A tag mentioned by no entry is not found. -/
theorem findTag_eq_none (l : List (FieldKind × EValue)) (t : String)
    (h : ∀ p ∈ l, p.1.tag ≠ t) : findTag l t = none := by
  induction l with
  | nil => rfl
  | cons p rest ih =>
    obtain ⟨k0, v0⟩ := p
    have hk0 : k0.tag ≠ t := h (k0, v0) (List.mem_cons_self _ _)
    simp only [findTag, if_neg hk0]
    exact ih (fun q hq => h q (List.mem_cons_of_mem _ hq))

/-! Claim theorems. -/

/-- C1: for every field kind K with value type V and every value v of type
V (here: v's dynamic type is the value type fixed by K), attaching the
entry K = v to an enriched exception and then performing selective lookup
of K on that same exception yields exactly v. -/
theorem attach_then_lookup (e : EnrichedException) (K : FieldKind) (v : EValue)
    (h : v.vtype = K.vtype) :
    getErrorInfo (.enriched (e.attach K v)) K = some v := by
  simp [getErrorInfo, EnrichedException.attach, findTag_attachEntry, h]

/-- Witness for C1 at a concrete exception, field kind and value. -/
theorem attach_then_lookup_witness :
    (EValue.str "writing zeros").vtype = (⟨"context", .vstr⟩ : FieldKind).vtype ∧
      getErrorInfo
        (.enriched (allocationFailed1.attach ⟨"context", .vstr⟩ (.str "writing zeros")))
        ⟨"context", .vstr⟩ = some (.str "writing zeros") :=
  ⟨rfl, attach_then_lookup allocationFailed1 ⟨"context", .vstr⟩ (.str "writing zeros") rfl⟩

/-- C2: on a well-formed enriched exception, attaching the same field kind
K twice with two values leaves the exception holding only the second value
for K (the entries with K's tag are exactly the one new entry, so their
count is one), and the full dump — header lines followed by one rendered
line per entry — therefore contains exactly one rendered line for K. -/
theorem attach_twice_last_write_wins (e : EnrichedException) (K : FieldKind)
    (v1 v2 : EValue) (hwf : e.wf) :
    ((e.attach K v1).attach K v2).entries.filter (fun p => p.1.tag == K.tag) = [(K, v2)] ∧
      ((e.attach K v1).attach K v2).entries.countP (fun p => p.1.tag == K.tag) = 1 ∧
      diagLines (.enriched ((e.attach K v1).attach K v2)) =
        headerLines ((e.attach K v1).attach K v2) ++
          ((e.attach K v1).attach K v2).entries.map renderEntryLine := by
  obtain ⟨hnd, _⟩ := hwf
  obtain ⟨h1a, h1b⟩ := attachEntry_filter_nodup e.entries K v1 hnd
  obtain ⟨h2a, h2b⟩ := attachEntry_filter_nodup (attachEntry e.entries K v1) K v2 h1b
  have hent : ((e.attach K v1).attach K v2).entries
      = attachEntry (attachEntry e.entries K v1) K v2 := rfl
  refine ⟨hent ▸ h2a, ?_, rfl⟩
  rw [List.countP_eq_length_filter, hent, h2a]
  rfl

/-- Witness for C2 at a concrete exception, field kind and two values. -/
theorem attach_twice_last_write_wins_witness :
    allocationFailed1.wf ∧
      ((allocationFailed1.attach errmsgInfo (.str "first")).attach errmsgInfo
            (.str "second")).entries.filter (fun p => p.1.tag == errmsgInfo.tag)
        = [(errmsgInfo, .str "second")] ∧
      ((allocationFailed1.attach errmsgInfo (.str "first")).attach errmsgInfo
            (.str "second")).entries.countP (fun p => p.1.tag == errmsgInfo.tag) = 1 ∧
      diagLines (.enriched ((allocationFailed1.attach errmsgInfo (.str "first")).attach
            errmsgInfo (.str "second"))) =
        headerLines ((allocationFailed1.attach errmsgInfo (.str "first")).attach
            errmsgInfo (.str "second")) ++
          ((allocationFailed1.attach errmsgInfo (.str "first")).attach errmsgInfo
              (.str "second")).entries.map renderEntryLine :=
  ⟨by decide,
    attach_twice_last_write_wins allocationFailed1 errmsgInfo (.str "first") (.str "second")
      (by decide)⟩

/-- C3: selective lookup is total (the model function always returns, it
has no raising outcome); it returns `none` on any caught value that does
not satisfy the enrichment capability; on a well-formed enriched exception
it returns the attached value of a present field kind, and `none` when no
entry carries the field kind's tag. -/
theorem getErrorInfo_total_spec (c : CaughtValue) (K : FieldKind) :
    (c.isEnriched = false → getErrorInfo c K = none) ∧
      (∀ e, c = .enriched e → e.wf →
        (∀ v, (K, v) ∈ e.entries → getErrorInfo c K = some v) ∧
          ((∀ p ∈ e.entries, p.1.tag ≠ K.tag) → getErrorInfo c K = none)) := by
  cases c with
  | plain ident msg =>
    refine ⟨fun _ => rfl, ?_⟩
    intro e heq
    cases heq
  | enriched e0 =>
    refine ⟨fun hfalse => by simp [CaughtValue.isEnriched] at hfalse, ?_⟩
    intro e heq hwf
    cases heq
    obtain ⟨hnd, hty⟩ := hwf
    constructor
    · intro v hmem
      have hfind : findTag e0.entries K.tag = some (K, v) :=
        findTag_of_mem_nodup e0.entries K v hnd hmem
      have hv : v.vtype = K.vtype := hty (K, v) hmem
      simp [getErrorInfo, hfind, hv]
    · intro habs
      have hfind : findTag e0.entries K.tag = none :=
        findTag_eq_none e0.entries K.tag habs
      simp [getErrorInfo, hfind]

/-- Witness for C3 at a concrete plain caught value and field kind. -/
theorem getErrorInfo_total_spec_witness :
    getErrorInfo (.plain "struct std::bad_alloc" none) errmsgInfo = none :=
  (getErrorInfo_total_spec (.plain "struct std::bad_alloc" none) errmsgInfo).1 rfl

/-- C4: on an enriched exception with zero attached fields the full dump
still succeeds (the renderer is a total function whose output is exactly
the header lines) and its output contains the throw-site line — the
"unknown" marker when no metadata was captured — and the base-identity
line. -/
theorem dump_zero_fields_total (e : EnrichedException) (h : e.entries = []) :
    diagLines (.enriched e) = headerLines e ∧
      renderThrowSiteLine e.throwSite ∈ diagLines (.enriched e) ∧
      ("Dynamic exception type: " ++ e.baseIdentity) ∈ diagLines (.enriched e) ∧
      (e.throwSite = none →
        "Throw location unknown (consider using BOOST_THROW_EXCEPTION)"
          ∈ diagLines (.enriched e)) := by
  have hd : diagLines (.enriched e) = headerLines e := by simp [diagLines, h]
  refine ⟨hd, ?_, ?_, ?_⟩
  · rw [hd]
    exact List.mem_cons_self _ _
  · rw [hd]
    exact List.mem_cons_of_mem _ (List.mem_cons_self _ _)
  · intro hn
    rw [hd]
    simp [headerLines, renderThrowSiteLine, hn]

/-- Witness for C4 at the zero-field exception thrown by example 1. -/
theorem dump_zero_fields_total_witness :
    diagLines (.enriched allocationFailed1) = headerLines allocationFailed1 ∧
      renderThrowSiteLine allocationFailed1.throwSite
        ∈ diagLines (.enriched allocationFailed1) ∧
      ("Dynamic exception type: " ++ allocationFailed1.baseIdentity)
        ∈ diagLines (.enriched allocationFailed1) ∧
      (allocationFailed1.throwSite = none →
        "Throw location unknown (consider using BOOST_THROW_EXCEPTION)"
          ∈ diagLines (.enriched allocationFailed1)) :=
  dump_zero_fields_total allocationFailed1 rfl

/-- C5 counterexample: in the scenario actually embodied by the sources
(example 1 run with a failing allocator), the full dump printed by the
top-level handler contains no line for a field kind "context" with value
"writing zeros": the attached field is `tag_errmsg` with value
"writing lots of zeros failed". -/
theorem scenarioB_context_counterexample :
    main1 (fun _ => 0) = some (diagLines (.enriched scenarioBException)) ∧
      renderEntryLine (⟨"context", .vstr⟩, .str "writing zeros")
        ∉ diagLines (.enriched scenarioBException) :=
  ⟨rfl, by decide⟩

/-- C5 (amended): in the scenario where the origination raises, the
intermediate frame catches, attaches one field and rethrows, and the
top-level handler performs a full dump, the dump consists of the header
lines followed by exactly one attached field line, for field kind
`tag_errmsg` (`errmsg_info`) with value "writing lots of zeros failed" —
in both example 1 and example 2. -/
theorem scenarioB_dump (alloc : Nat → Nat) (h : alloc maxSize = 0) :
    main1 alloc
        = some (headerLines scenarioBException
            ++ [renderEntryLine (errmsgInfo, .str "writing lots of zeros failed")]) ∧
      main2 alloc
        = some (headerLines scenarioB2Exception
            ++ [renderEntryLine (errmsgInfo, .str "writing lots of zeros failed")]) := by
  constructor
  · have ha : allocate_memory1 alloc maxSize = .thrown (.enriched allocationFailed1) := by
      simp [allocate_memory1, h]
    have hw : write_lot_of_zeros1 alloc = .thrown (.enriched scenarioBException) := by
      simp [write_lot_of_zeros1, ha, scenarioBException]
    simp [main1, hw]
    rfl
  · have ha : allocate_memory2 alloc maxSize
        = .thrown (.enriched (boostThrowException allocationFailedPlain2 throwSite2)) := by
      simp [allocate_memory2, h]
    have hw : write_lots_of_zeros2 alloc = .thrown (.enriched scenarioB2Exception) := by
      simp [write_lots_of_zeros2, ha, scenarioB2Exception]
    simp [main2, hw]
    rfl

/-- Witness for C5 (amended) at the always-failing allocator. -/
theorem scenarioB_dump_witness :
    main1 (fun _ => 0)
        = some (headerLines scenarioBException
            ++ [renderEntryLine (errmsgInfo, .str "writing lots of zeros failed")]) ∧
      main2 (fun _ => 0)
        = some (headerLines scenarioB2Exception
            ++ [renderEntryLine (errmsgInfo, .str "writing lots of zeros failed")]) :=
  scenarioB_dump (fun _ => 0) rfl

/-- C6: raising a kind that does not satisfy the enrichment capability
through the auto-wrapping raise helper yields a caught value that does
satisfy the capability and whose conventional message equals the original
kind's message; example 2's `allocate_memory` raises exactly such a
wrapped value when the underlying allocation yields null. -/
theorem autowrap_spec (p : PlainException) (site : ThrowSite) :
    (CaughtValue.enriched (boostThrowException p site)).isEnriched = true ∧
      (boostThrowException p site).conventionalMessage = some p.whatMsg ∧
      (∀ alloc : Nat → Nat, alloc maxSize = 0 →
        allocate_memory2 alloc maxSize
          = .thrown (.enriched (boostThrowException allocationFailedPlain2 throwSite2))) := by
  refine ⟨rfl, rfl, ?_⟩
  intro alloc h
  simp [allocate_memory2, h]

/-- Witness for C6 at example 2's plain exception kind and throw site. -/
theorem autowrap_spec_witness :
    (CaughtValue.enriched (boostThrowException allocationFailedPlain2 throwSite2)).isEnriched
        = true ∧
      (boostThrowException allocationFailedPlain2 throwSite2).conventionalMessage
        = some allocationFailedPlain2.whatMsg ∧
      allocate_memory2 (fun _ => 0) maxSize
        = .thrown (.enriched (boostThrowException allocationFailedPlain2 throwSite2)) :=
  ⟨(autowrap_spec allocationFailedPlain2 throwSite2).1,
    (autowrap_spec allocationFailedPlain2 throwSite2).2.1,
    (autowrap_spec allocationFailedPlain2 throwSite2).2.2 (fun _ => 0) rfl⟩

/-- C7: the intermediate frame of example 1 rethrows the same exception
identity it caught — base identity, conventional message and throw site
are unchanged and every tag present at origination is still present — and,
in general, an attach only grows or overwrites the attachment collection:
it never removes a tag. -/
theorem propagation_preserves_identity (alloc : Nat → Nat) (e0 : EnrichedException)
    (h : allocate_memory1 alloc maxSize = .thrown (.enriched e0)) :
    (∃ e1, write_lot_of_zeros1 alloc = .thrown (.enriched e1) ∧
        e1.baseIdentity = e0.baseIdentity ∧
        e1.conventionalMessage = e0.conventionalMessage ∧
        e1.throwSite = e0.throwSite ∧
        ∀ t ∈ e0.tags, t ∈ e1.tags) ∧
      (∀ (e : EnrichedException) (K : FieldKind) (v : EValue),
        ∀ t ∈ e.tags, t ∈ (e.attach K v).tags) := by
  constructor
  · refine ⟨e0.attach errmsgInfo (.str "writing lots of zeros failed"), ?_, rfl, rfl, rfl, ?_⟩
    · simp [write_lot_of_zeros1, h]
    · intro t ht
      exact mem_tags_attachEntry e0.entries errmsgInfo (.str "writing lots of zeros failed") t ht
  · intro e K v t ht
    exact mem_tags_attachEntry e.entries K v t ht

/-- Witness for C7 at the always-failing allocator and the originated
exception of example 1. -/
theorem propagation_preserves_identity_witness :
    ∃ e1, write_lot_of_zeros1 (fun _ => 0) = .thrown (.enriched e1) ∧
      e1.baseIdentity = allocationFailed1.baseIdentity ∧
      e1.conventionalMessage = allocationFailed1.conventionalMessage ∧
      e1.throwSite = allocationFailed1.throwSite ∧
      ∀ t ∈ allocationFailed1.tags, t ∈ e1.tags :=
  (propagation_preserves_identity (fun _ => 0) allocationFailed1 rfl).1

/-- C8: the full dump of an enriched exception is the header lines (throw
site, exception kind, conventional message) followed by the attached
fields rendered one per line in the stored order; attaching a new field
kind appends it at the end of the collection, so the stored order is the
insertion order; and the dump is a deterministic function of the
exception's contents. -/
theorem dump_format_deterministic (e : EnrichedException) :
    diagLines (.enriched e) = headerLines e ++ e.entries.map renderEntryLine ∧
      (∀ K v, (∀ p ∈ e.entries, p.1.tag ≠ K.tag) →
        (e.attach K v).entries = e.entries ++ [(K, v)]) ∧
      (∀ c1 c2 : CaughtValue, c1 = c2 → diagLines c1 = diagLines c2) := by
  refine ⟨rfl, ?_, ?_⟩
  · intro K v h
    exact attachEntry_of_not_mem e.entries K v h
  · intro c1 c2 h
    rw [h]

/-- Witness for C8 at a concrete exception and a fresh field kind. -/
theorem dump_format_deterministic_witness :
    diagLines (.enriched allocationFailed1)
        = headerLines allocationFailed1 ++ allocationFailed1.entries.map renderEntryLine ∧
      (allocationFailed1.attach errmsgInfo (.str "writing lots of zeros failed")).entries
        = allocationFailed1.entries ++ [(errmsgInfo, .str "writing lots of zeros failed")] :=
  ⟨(dump_format_deterministic allocationFailed1).1,
    (dump_format_deterministic allocationFailed1).2.1 errmsgInfo
      (.str "writing lots of zeros failed")
      (by intro p hp; simp [allocationFailed1] at hp)⟩

/-- C9: on every execution path of example 3 on which the catch handler in
`main` runs (the model returns `some r`), the selective lookup result `r`
is the attached error message — in particular it is not the null pointer,
so the unchecked dereference `*boost::get_error_info<errmsg_info>(e)` is
well-defined. -/
theorem example3_lookup_never_null (alloc : Nat → Nat) (r : Option EValue)
    (h : main3 alloc = some r) :
    r = some (.str "writing lots of zeros failed") := by
  by_cases h0 : alloc maxSize = 0
  · have hm : main3 alloc = some (some (.str "writing lots of zeros failed")) := by
      simp [main3, write_lots_of_zeros3, allocate_memory3, h0]
      rfl
    rw [hm] at h
    exact (Option.some.injEq .. ▸ h).symm
  · have hm : main3 alloc = none := by
      simp [main3, write_lots_of_zeros3, allocate_memory3, h0]
    rw [hm] at h
    cases h

/-- Witness for C9 at the always-failing allocator. -/
theorem example3_lookup_never_null_witness :
    main3 (fun _ => 0) = some (some (.str "writing lots of zeros failed")) ∧
      (some (EValue.str "writing lots of zeros failed") : Option EValue)
        = some (.str "writing lots of zeros failed") :=
  ⟨rfl,
    example3_lookup_never_null (fun _ => 0) (some (.str "writing lots of zeros failed")) rfl⟩

/-- C10: for every allocator behaviour and every size, `allocate_memory`
(in both example 1 and example 2) throws its `allocation_failed` exception
exactly when the underlying non-throwing allocation yields null, and
otherwise returns the allocator's pointer, which is non-null. -/
theorem allocate_memory_contract (alloc : Nat → Nat) (size : Nat) :
    ((allocate_memory1 alloc size = .thrown (.enriched allocationFailed1))
        ↔ alloc size = 0) ∧
      (∀ p, allocate_memory1 alloc size = .ok p → p ≠ 0 ∧ p = alloc size) ∧
      ((allocate_memory2 alloc size
          = .thrown (.enriched (boostThrowException allocationFailedPlain2 throwSite2)))
        ↔ alloc size = 0) ∧
      (∀ p, allocate_memory2 alloc size = .ok p → p ≠ 0 ∧ p = alloc size) := by
  by_cases h0 : alloc size = 0
  · refine ⟨?_, ?_, ?_, ?_⟩ <;>
      simp [allocate_memory1, allocate_memory2, h0]
  · have h1 : allocate_memory1 alloc size = .ok (alloc size) := by
      simp [allocate_memory1, h0]
    have h2 : allocate_memory2 alloc size = .ok (alloc size) := by
      simp [allocate_memory2, h0]
    refine ⟨?_, ?_, ?_, ?_⟩
    · rw [h1]
      constructor
      · intro hc
        cases hc
      · intro hc
        exact absurd hc h0
    · intro p hp
      rw [h1] at hp
      cases hp
      exact ⟨h0, rfl⟩
    · rw [h2]
      constructor
      · intro hc
        cases hc
      · intro hc
        exact absurd hc h0
    · intro p hp
      rw [h2] at hp
      cases hp
      exact ⟨h0, rfl⟩

/-- Witness for C10: the always-failing allocator makes example 1's
`allocate_memory` throw, and a non-null-returning allocator makes it
return that pointer. -/
theorem allocate_memory_contract_witness :
    allocate_memory1 (fun _ => 0) maxSize = .thrown (.enriched allocationFailed1) ∧
      ((7 : Nat) ≠ 0 ∧ (7 : Nat) = (7 : Nat)) :=
  ⟨(allocate_memory_contract (fun _ => 0) maxSize).1.mpr rfl,
    (allocate_memory_contract (fun _ => 7) maxSize).2.1 7 rfl⟩

end BoostExc
